import Mathlib

/-! Shallow embedding of the session, negotiation, media and data-channel
logic of webrtc-sendrecv.c (gst-webrtcbin-hackground). Each C handler is
modelled as a pure state transformer on the global variables of the
program that additionally returns, in order, the list of observable
effects the handler performs: websocket sends, requests issued to the
webrtcbin collaborator, error prints, and main-loop control. Pipeline
element construction and the websocket/JSON libraries are external
collaborators; only the observable requests made to them are recorded.
GstPromise semantics used by the embedding: a promise may carry a change
function; replying to a pending promise invokes the change function, and
interrupting a still-pending promise also invokes the change function
immediately (with result INTERRUPTED), while a promise without a change
function is fire-and-forget. -/

namespace Webrtc

/-- Mirror of enum AppState in webrtc-sendrecv.c, including the explicit
numeric codes the C code compares with. -/
inductive AppState
  | APP_STATE_UNKNOWN
  | APP_STATE_ERROR
  | SERVER_CONNECTING
  | SERVER_CONNECTION_ERROR
  | SERVER_CONNECTED
  | SERVER_REGISTERING
  | SERVER_REGISTRATION_ERROR
  | SERVER_REGISTERED
  | SERVER_CLOSED
  | PEER_CONNECTING
  | PEER_CONNECTION_ERROR
  | PEER_CONNECTED
  | PEER_CALL_NEGOTIATING
  | PEER_CALL_STARTED
  | PEER_CALL_STOPPING
  | PEER_CALL_STOPPED
  | PEER_CALL_ERROR
deriving DecidableEq, Repr

/-- Numeric value of each enum AppState constant in the C source
(APP_STATE_UNKNOWN = 0, SERVER_CONNECTING = 1000, etc). -/
def AppState.code : AppState → Nat
  | AppState.APP_STATE_UNKNOWN => 0
  | AppState.APP_STATE_ERROR => 1
  | AppState.SERVER_CONNECTING => 1000
  | AppState.SERVER_CONNECTION_ERROR => 1001
  | AppState.SERVER_CONNECTED => 1002
  | AppState.SERVER_REGISTERING => 2000
  | AppState.SERVER_REGISTRATION_ERROR => 2001
  | AppState.SERVER_REGISTERED => 2002
  | AppState.SERVER_CLOSED => 2003
  | AppState.PEER_CONNECTING => 3000
  | AppState.PEER_CONNECTION_ERROR => 3001
  | AppState.PEER_CONNECTED => 3002
  | AppState.PEER_CALL_NEGOTIATING => 4000
  | AppState.PEER_CALL_STARTED => 4001
  | AppState.PEER_CALL_STOPPING => 4002
  | AppState.PEER_CALL_STOPPED => 4003
  | AppState.PEER_CALL_ERROR => 4004

/-- Mirror of GstWebRTCSignalingState, read from the webrtcbin
collaborator through the signaling-state property. -/
inductive SignalingState
  | stable
  | closed
  | haveLocalOffer
  | haveRemoteOffer
  | haveLocalPranswer
  | haveRemotePranswer
deriving DecidableEq, Repr

/-- Mirror of the subset of GstWebRTCSDPType the program constructs
(create-offer yields an offer, create-answer yields an answer; the other
enum values hit g_assert_not_reached in send_sdp_to_peer). -/
inductive SdpType
  | offer
  | answer
deriving DecidableEq, Repr

/-- Mirror of GstWebRTCSessionDescription: a type tag plus the SDP blob
(kept opaque as a string). -/
structure SessionDescription where
  type : SdpType
  sdp : String
deriving DecidableEq, Repr

/-- Mirror of enum AppVideoSource. -/
inductive AppVideoSource
  | VIDEO_SOURCE_INVALID
  | VIDEO_SOURCE_TEST_PATTERN
  | VIDEO_SOURCE_LOOPBACK
deriving DecidableEq, Repr

/-- State of the soup websocket connection as far as the C code inspects
it (SOUP_WEBSOCKET_STATE_OPEN versus anything else). -/
inductive SoupWsState
  | opened
  | closing
  | closed
deriving DecidableEq, Repr

/-- The two JSON wire message shapes built by the send paths. The exact
json-glib serialisation is collaborator plumbing; the structured content
is what is modelled. -/
inductive WireMsg
  | ice (candidate : String) (sdpMLineIndex : Nat)
  | sdp (type : String) (sdp : String)
deriving DecidableEq, Repr

/-- Promise change functions the program installs on requests to the
webrtcbin collaborator. -/
inductive Callback
  | onOfferCreated
  | onAnswerCreated
  | onOfferSet
  | onLocalDescriptionSet
deriving DecidableEq, Repr

/-- Observable effects a handler performs, recorded in execution order.
A requestSetLocalDescription or requestSetRemoteDescription with a
callback means the change function fires when the collaborator completes
the operation; with none the request is fire-and-forget. -/
inductive Event
  | printErr (msg : String)
  | assignState (st : AppState)
  | wsSend (m : WireMsg)
  | wsClose
  | wsRelease
  | quitLoop
  | requestCreateOffer (cb : Callback)
  | requestCreateAnswer (cb : Callback)
  | requestSetLocalDescription (d : SessionDescription) (cb : Option Callback)
  | requestSetRemoteDescription (d : SessionDescription) (cb : Option Callback)
  | addIceCandidate (sdpMLineIndex : Int) (candidate : String)
  | dcSendString (text : String)
  | dcSendData (payload : String)
deriving DecidableEq, Repr

/-- Deferred work scheduled on the GLib main loop (g_idle_add and
g_timeout_add): these run on a later loop iteration, never inside the
handler that schedules them. -/
inductive Task
  | sendVideoToBrowserTask (source : AppVideoSource)
  | stopVideoToBrowserTask
  | sendAudioToBrowserTask
  | stopAudioToBrowserTask
  | dumpGraphTask
  | sendHelloTimer
deriving DecidableEq, Repr

/-- Boolean recogniser for websocket send events, used to state that an
execution sends nothing to the wire. -/
def is_ws_send : Event → Bool
  | Event.wsSend _ => true
  | _ => false

/-- The mutable globals of webrtc-sendrecv.c that the embedded handlers
read and write. video_bin/video_sink (and audio counterparts) hold the
identities of the currently stored branch bin and webrtcbin request pad;
pipeBins and webrtcSinkPads track what is currently added to pipe1 and
requested from webrtc1; freshId generates distinct identities for newly
constructed collaborator objects. helloTimerStarted is the function-level
static variable done of data_channel_on_open. loopAlive reflects whether
the GMainLoop is still running. -/
structure St where
  app_state : AppState
  making_offer : Bool
  wsConn : Option SoupWsState
  loopAlive : Bool
  ping_count : Nat
  helloTimerStarted : Bool
  video_bin : Option Nat
  video_sink : Option Nat
  audio_bin : Option Nat
  audio_sink : Option Nat
  pipeBins : List Nat
  webrtcSinkPads : List Nat
  freshId : Nat
deriving DecidableEq, Repr

/-- A representative running-session state: websocket open, main loop
running, no media branch attached, counters at zero. -/
def runningSt : St :=
  { app_state := AppState.APP_STATE_UNKNOWN
    making_offer := false
    wsConn := some SoupWsState.opened
    loopAlive := true
    ping_count := 0
    helloTimerStarted := false
    video_bin := none
    video_sink := none
    audio_bin := none
    audio_sink := none
    pipeBins := []
    webrtcSinkPads := []
    freshId := 0 }

/-- The running state with app_state = PEER_CALL_NEGOTIATING. -/
def negotiatingSt : St :=
  { runningSt with app_state := AppState.PEER_CALL_NEGOTIATING }

/-- The running state with app_state = PEER_CONNECTING. -/
def peerConnectingSt : St :=
  { runningSt with app_state := AppState.PEER_CONNECTING }

/-- cleanup_and_quit_loop: optionally print the message, record the given
state when it is nonzero, close the websocket gracefully when open
(otherwise release it), and quit the main loop. The close completion
re-enters this routine later with the connection no longer open. -/
def cleanup_and_quit_loop (msg : Option String) (state : AppState) (s : St) :
    St × List Event :=
  let evMsg : List Event :=
    match msg with
    | some m => [Event.printErr m]
    | none => []
  let st1 : AppState := if 0 < state.code then state else s.app_state
  let evState : List Event :=
    if 0 < state.code then [Event.assignState state] else []
  let ws1 : Option SoupWsState :=
    match s.wsConn with
    | some SoupWsState.opened => some SoupWsState.closing
    | some _ => none
    | none => none
  let evWs : List Event :=
    match s.wsConn with
    | some SoupWsState.opened => [Event.wsClose]
    | some _ => [Event.wsRelease]
    | none => []
  let evLoop : List Event := if s.loopAlive then [Event.quitLoop] else []
  ({ s with app_state := st1, wsConn := ws1, loopAlive := false },
   evMsg ++ evState ++ evWs ++ evLoop)

/-- send_ice_candidate_message: refuse (protocol error and shutdown) when
app_state is below PEER_CALL_NEGOTIATING, otherwise wrap the candidate in
the ice JSON shape and send it on the websocket. -/
def send_ice_candidate_message (mlineindex : Nat) (candidate : String)
    (s : St) : St × List Event :=
  if s.app_state.code < AppState.PEER_CALL_NEGOTIATING.code then
    cleanup_and_quit_loop (some "Can\x27t send ICE, not in call")
      AppState.APP_STATE_ERROR s
  else
    (s, [Event.wsSend (WireMsg.ice candidate mlineindex)])

/-- Serialisation of the description type tag used by send_sdp_to_peer. -/
def sdp_type_string : SdpType → String
  | SdpType.offer => "offer"
  | SdpType.answer => "answer"

/-- send_sdp_to_peer: refuse (protocol error and shutdown) when app_state
is below PEER_CALL_NEGOTIATING, otherwise serialise the description into
the sdp JSON shape and send it on the websocket. -/
def send_sdp_to_peer (desc : SessionDescription) (s : St) : St × List Event :=
  if s.app_state.code < AppState.PEER_CALL_NEGOTIATING.code then
    cleanup_and_quit_loop (some "Can\x27t send SDP to peer, not in call")
      AppState.APP_STATE_ERROR s
  else
    (s, [Event.wsSend (WireMsg.sdp (sdp_type_string desc.type) desc.sdp)])

/-- on_offer_created: completion of the create-offer request. The C code
asserts app_state == PEER_CALL_NEGOTIATING on entry. It reads the
signaling-state property of the collaborator; when it is not stable the
local offer attempt is abandoned (making_offer cleared, nothing else
done). Otherwise the offer is applied as the local description on a bare
promise that is immediately interrupted (fire-and-forget, no change
function), sent to the peer, and making_offer is cleared. -/
def on_offer_created (offerSdp : String) (signaling_state : SignalingState)
    (s : St) : St × List Event :=
  let offer : SessionDescription := { type := SdpType.offer, sdp := offerSdp }
  if signaling_state ≠ SignalingState.stable then
    ({ s with making_offer := false }, [])
  else
    let r := send_sdp_to_peer offer s
    ({ r.1 with making_offer := false },
     Event.requestSetLocalDescription offer none :: r.2)

/-- create_offer: set app_state to PEER_CALL_NEGOTIATING, raise
making_offer, and request offer creation with on_offer_created as the
promise change function. -/
def create_offer (s : St) : St × List Event :=
  ({ s with app_state := AppState.PEER_CALL_NEGOTIATING, making_offer := true },
   [Event.assignState AppState.PEER_CALL_NEGOTIATING,
    Event.requestCreateOffer Callback.onOfferCreated])

/-- on_negotiation_needed: logs and calls create_offer. -/
def on_negotiation_needed (s : St) : St × List Event :=
  create_offer s

/-- create_answer: request answer creation with on_answer_created as the
promise change function. -/
def create_answer (s : St) : St × List Event :=
  (s, [Event.requestCreateAnswer Callback.onAnswerCreated])

/-- on_offer_set: change function of the set-remote-description promise
created in on_offer_received; it fires when the collaborator completes
the remote-description application (that promise is never interrupted)
and requests answer creation. -/
def on_offer_set (s : St) : St × List Event :=
  create_answer s

/-- on_offer_received: handling of a remote offer taken from the wire.
When the signaling state of the collaborator is not stable the offer is
ignored entirely (only a log line, no request, no response). Otherwise
the offer is applied as the remote description with on_offer_set as
completion. -/
def on_offer_received (sdp : String) (signaling_state : SignalingState)
    (s : St) : St × List Event :=
  if signaling_state ≠ SignalingState.stable then
    (s, [])
  else
    (s, [Event.requestSetRemoteDescription
          { type := SdpType.offer, sdp := sdp } (some Callback.onOfferSet)])

/-- on_local_description_set: change function of the promise attached to
the set-local-description request issued for a locally created answer;
it sends the answer to the peer. -/
def on_local_description_set (answer : SessionDescription) (s : St) :
    St × List Event :=
  send_sdp_to_peer answer s

/-- on_answer_created: completion of the create-answer request. The C
code asserts app_state == PEER_CALL_NEGOTIATING, emits
set-local-description with a promise whose change function is
on_local_description_set, and then immediately calls
gst_promise_interrupt on that promise. Interrupting the still-pending
promise invokes the change function at once (GstPromise semantics), so
on_local_description_set runs inside this very handler, before the
collaborator has completed or acknowledged the application. -/
def on_answer_created (answerSdp : String) (s : St) : St × List Event :=
  let answer : SessionDescription := { type := SdpType.answer, sdp := answerSdp }
  let r := on_local_description_set answer s
  (r.1,
   Event.requestSetLocalDescription answer (some Callback.onLocalDescriptionSet)
     :: r.2)

/-- send_media_to_browser: add the freshly built branch bin to pipe1,
request a new sink pad from webrtc1, link them, and return the sink pad.
The lock/sync-state calls around the linkage are collaborator plumbing
with no observable effect in this model. The returned pad gets a fresh
identity, distinct from every identity handed out before. -/
def send_media_to_browser (bin : Nat) (s : St) : Nat × St :=
  let sink := s.freshId
  (sink,
   { s with
     pipeBins := s.pipeBins ++ [bin]
     webrtcSinkPads := s.webrtcSinkPads ++ [sink]
     freshId := s.freshId + 1 })

/-- send_video_to_browser: unconditionally build a fresh video branch bin
for the requested source (element construction is collaborator plumbing,
modelled as allocating a fresh bin identity), attach it through
send_media_to_browser, and store the new handles in video_bin and
video_sink, overwriting whatever was stored there. There is no guard
against a branch already being attached. -/
def send_video_to_browser (source : AppVideoSource) (s : St) : St :=
  let bin := s.freshId
  let r := send_media_to_browser bin { s with freshId := s.freshId + 1 }
  { r.2 with video_sink := some r.1, video_bin := some bin }

/-- send_audio_to_browser: audio counterpart of send_video_to_browser,
equally unguarded. -/
def send_audio_to_browser (s : St) : St :=
  let bin := s.freshId
  let r := send_media_to_browser bin { s with freshId := s.freshId + 1 }
  { r.2 with audio_sink := some r.1, audio_bin := some bin }

/-- stop_media_to_browser: sends end-of-stream to the branch, demotes the
transceiver direction, unlinks, releases the request pad and removes the
bin from pipe1. The C code dereferences the element and sink handles
unconditionally (gst_element_get_static_pad, g_object_get on the sink),
so calling it with absent handles is a crash (modelled as none), not a
no-op. -/
def stop_media_to_browser (element : Option Nat) (sink : Option Nat)
    (s : St) : Option St :=
  match element, sink with
  | some el, some sk =>
      some { s with
             pipeBins := s.pipeBins.erase el
             webrtcSinkPads := s.webrtcSinkPads.erase sk }
  | _, _ => none

/-- stop_video_to_browser: stop the branch held in video_bin/video_sink
(whatever they currently are, without any null check) and clear both. -/
def stop_video_to_browser (s : St) : Option St :=
  match stop_media_to_browser s.video_bin s.video_sink s with
  | some s1 => some { s1 with video_sink := none, video_bin := none }
  | none => none

/-- stop_audio_to_browser: audio counterpart of stop_video_to_browser. -/
def stop_audio_to_browser (s : St) : Option St :=
  match stop_media_to_browser s.audio_bin s.audio_sink s with
  | some s1 => some { s1 with audio_bin := none, audio_sink := none }
  | none => none

/-- data_channel_on_message_string: exact-match dispatch of the five
command strings. Every recognised command only schedules the media
operation with g_idle_add for a later loop iteration; the handler itself
mutates nothing and an unrecognised string matches no branch (only the
incoming message is logged, no error is raised). -/
def data_channel_on_message_string (s : St) (str : String) : St × List Task :=
  (s,
   (if str = "RECV VIDEO START TESTPATTERN" then
      [Task.sendVideoToBrowserTask AppVideoSource.VIDEO_SOURCE_TEST_PATTERN]
    else []) ++
   (if str = "RECV VIDEO START LOOPBACK" then
      [Task.sendVideoToBrowserTask AppVideoSource.VIDEO_SOURCE_LOOPBACK]
    else []) ++
   (if str = "RECV VIDEO STOP" then [Task.stopVideoToBrowserTask] else []) ++
   (if str = "RECV AUDIO START" then [Task.sendAudioToBrowserTask] else []) ++
   (if str = "RECV AUDIO STOP" then [Task.stopAudioToBrowserTask] else []))

/-- data_channel_send_hello: the 2-second liveness tick. Sends the text
PING n (with the counter post-incremented) followed by a binary payload,
and returns G_SOURCE_CONTINUE so the timer keeps firing. -/
def data_channel_send_hello (s : St) : St × List Event × Bool :=
  ({ s with ping_count := s.ping_count + 1 },
   ([Event.dcSendString (String.append "PING " (toString s.ping_count)),
     Event.dcSendData "data"],
    true))

/-- data_channel_on_open: always resets ping_count to zero; starts the
2-second hello timer only when the function-level static flag done is
still unset (the flag is program-global, shared by all channels); always
schedules a graph dump on the next idle iteration. -/
def data_channel_on_open (s : St) : St × List Task :=
  let s1 : St := { s with ping_count := 0 }
  if s1.helloTimerStarted = false then
    ({ s1 with helloTimerStarted := true },
     [Task.sendHelloTimer, Task.dumpGraphTask])
  else
    (s1, [Task.dumpGraphTask])

/-- Routing classes for plaintext server messages, in the order the C
code tests them: HELLO, SESSION_OK, OFFER_REQUEST, prefix ERROR, and
otherwise the JSON path. -/
inductive ServerTextClass
  | hello
  | sessionOk
  | offerRequest
  | errorText
  | jsonOrUnknown
deriving DecidableEq, Repr

/-- g_str_has_prefix of the literal ERROR on the message text. -/
def is_error_text (text : String) : Bool :=
  "ERROR".data.isPrefixOf text.data

/-- String-level routing performed at the top of on_server_message. -/
def classify_server_text (text : String) : ServerTextClass :=
  if text = "HELLO" then ServerTextClass.hello
  else if text = "SESSION_OK" then ServerTextClass.sessionOk
  else if text = "OFFER_REQUEST" then ServerTextClass.offerRequest
  else if is_error_text text then ServerTextClass.errorText
  else ServerTextClass.jsonOrUnknown

/-- The state-dependent error variant chosen by the ERROR branch of
on_server_message. -/
def error_state_for : AppState → AppState
  | AppState.SERVER_CONNECTING => AppState.SERVER_CONNECTION_ERROR
  | AppState.SERVER_REGISTERING => AppState.SERVER_REGISTRATION_ERROR
  | AppState.PEER_CONNECTING => AppState.PEER_CONNECTION_ERROR
  | AppState.PEER_CONNECTED => AppState.PEER_CALL_ERROR
  | AppState.PEER_CALL_NEGOTIATING => AppState.PEER_CALL_ERROR
  | _ => AppState.APP_STATE_ERROR

/-- ERROR branch of on_server_message: map the current state to its
error variant, then cleanup_and_quit_loop with the message text and
state argument 0 (so the error variant just assigned is kept). -/
def on_server_error_message (text : String) (s : St) : St × List Event :=
  let r := cleanup_and_quit_loop (some text) AppState.APP_STATE_UNKNOWN
    { s with app_state := error_state_for s.app_state }
  (r.1, Event.assignState (error_state_for s.app_state) :: r.2)

/-- The sdp member of an incoming JSON message: an optional type member
and the SDP text (whose successful parse the C code asserts). -/
structure SdpJson where
  type : Option String
  sdp : String
deriving DecidableEq, Repr

/-- The sdp branch of on_server_message. It first unconditionally sets
app_state to PEER_CALL_NEGOTIATING, then validates: a missing type
member aborts through cleanup_and_quit_loop with PEER_CALL_ERROR. A type
equal to answer applies the remote description on a bare promise that is
immediately interrupted (fire-and-forget) and sets app_state to
PEER_CALL_STARTED right away, without waiting for the application to
complete; any other type is handed to on_offer_received. -/
def handle_sdp_json (j : SdpJson) (signaling_state : SignalingState)
    (s : St) : St × List Event :=
  let s1 : St := { s with app_state := AppState.PEER_CALL_NEGOTIATING }
  match j.type with
  | none =>
      let r := cleanup_and_quit_loop
        (some "ERROR: received SDP without \x27type\x27")
        AppState.PEER_CALL_ERROR s1
      (r.1, Event.assignState AppState.PEER_CALL_NEGOTIATING :: r.2)
  | some ty =>
      if ty = "answer" then
        ({ s1 with app_state := AppState.PEER_CALL_STARTED },
         [Event.assignState AppState.PEER_CALL_NEGOTIATING,
          Event.requestSetRemoteDescription
            { type := SdpType.answer, sdp := j.sdp } none,
          Event.assignState AppState.PEER_CALL_STARTED])
      else
        let r := on_offer_received j.sdp signaling_state s1
        (r.1, Event.assignState AppState.PEER_CALL_NEGOTIATING :: r.2)

/-- Exit code computation of main: ret_code starts at -1, option-parse
failure returns -1, a failed plugin check jumps to out with -1 still in
place, and otherwise ret_code is set to 0 before the main loop runs and
is never written again, so the state in which the session ended does not
influence the exit code. -/
def main_ret_code (parse_ok : Bool) (plugins_ok : Bool)
    (final_state : AppState) : Int :=
  if parse_ok = false then -1
  else if plugins_ok = false then -1
  else 0

theorem cleanup_filter_ws_send (msg : Option String) (state : AppState)
    (s : St) :
    ((cleanup_and_quit_loop msg state s).2.filter is_ws_send) = [] := by
  unfold cleanup_and_quit_loop
  simp only [List.filter_append, List.append_eq_nil]
  refine ⟨⟨⟨?_, ?_⟩, ?_⟩, ?_⟩
  · cases msg <;> simp [is_ws_send]
  · by_cases h : 0 < state.code <;> simp [h, is_ws_send]
  · rcases s.wsConn with _ | ws
    · simp
    · cases ws <;> simp [is_ws_send]
  · by_cases h : s.loopAlive <;> simp [h, is_ws_send]

theorem cleanup_app_state_set (msg : Option String) (state : AppState)
    (s : St) (h : 0 < state.code) :
    (cleanup_and_quit_loop msg state s).1.app_state = state := by
  simp [cleanup_and_quit_loop, h]

theorem cleanup_app_state_kept (msg : Option String) (s : St) :
    (cleanup_and_quit_loop msg AppState.APP_STATE_UNKNOWN s).1.app_state
      = s.app_state := by
  simp [cleanup_and_quit_loop, AppState.code]

theorem cleanup_loop_dead (msg : Option String) (state : AppState) (s : St) :
    (cleanup_and_quit_loop msg state s).1.loopAlive = false := by
  simp [cleanup_and_quit_loop]

theorem cleanup_prints (m : String) (state : AppState) (s : St) :
    Event.printErr m ∈ (cleanup_and_quit_loop (some m) state s).2 := by
  simp [cleanup_and_quit_loop]

/-- Claim C1: at every offer-created completion (the C code asserts it
runs in state PEER_CALL_NEGOTIATING): when the signaling state of the
collaborator is not stable, the local offer attempt is abandoned,
meaning making_offer returns to false and no effect is performed at all
(no local description applied, no SDP message sent); otherwise the offer
is applied as the local description, serialised and sent to the peer,
and making_offer is cleared. -/
theorem on_offer_created_glare (offerSdp : String) (sig : SignalingState)
    (s : St) (h : s.app_state = AppState.PEER_CALL_NEGOTIATING) :
    (sig ≠ SignalingState.stable →
       on_offer_created offerSdp sig s
         = ({ s with making_offer := false }, [])) ∧
    (sig = SignalingState.stable →
       on_offer_created offerSdp sig s
         = ({ s with making_offer := false },
            [Event.requestSetLocalDescription
               { type := SdpType.offer, sdp := offerSdp } none,
             Event.wsSend (WireMsg.sdp "offer" offerSdp)])) := by
  constructor
  · intro hne
    simp [on_offer_created, hne]
  · intro he
    subst he
    simp [on_offer_created, send_sdp_to_peer, h, AppState.code,
      sdp_type_string]

theorem on_offer_created_glare_witness :
    (negotiatingSt.app_state = AppState.PEER_CALL_NEGOTIATING ∧
     SignalingState.haveRemoteOffer ≠ SignalingState.stable ∧
     on_offer_created "v=0" SignalingState.haveRemoteOffer negotiatingSt
       = ({ negotiatingSt with making_offer := false }, [])) ∧
    (SignalingState.stable = SignalingState.stable ∧
     on_offer_created "v=0" SignalingState.stable negotiatingSt
       = ({ negotiatingSt with making_offer := false },
          [Event.requestSetLocalDescription
             { type := SdpType.offer, sdp := "v=0" } none,
           Event.wsSend (WireMsg.sdp "offer" "v=0")])) :=
  ⟨⟨rfl, by decide,
    (on_offer_created_glare "v=0" SignalingState.haveRemoteOffer
      negotiatingSt rfl).1 (by decide)⟩,
   ⟨rfl,
    (on_offer_created_glare "v=0" SignalingState.stable
      negotiatingSt rfl).2 rfl⟩⟩

/-- Claim C2: every attempt to send an SDP description or a local ICE
candidate checks the session state. Below PEER_CALL_NEGOTIATING nothing
is sent on the wire and a protocol error is raised: the error reason is
printed, app_state becomes APP_STATE_ERROR and the main loop is stopped.
At PEER_CALL_NEGOTIATING or above, the message is sent. -/
theorem sdp_ice_send_requires_negotiating (s : St) (mline : Nat)
    (cand : String) (desc : SessionDescription) :
    (s.app_state.code < AppState.PEER_CALL_NEGOTIATING.code →
       ((send_ice_candidate_message mline cand s).2.filter is_ws_send = [] ∧
        (send_ice_candidate_message mline cand s).1.app_state
          = AppState.APP_STATE_ERROR ∧
        Event.printErr "Can\x27t send ICE, not in call"
          ∈ (send_ice_candidate_message mline cand s).2 ∧
        (send_ice_candidate_message mline cand s).1.loopAlive = false) ∧
       ((send_sdp_to_peer desc s).2.filter is_ws_send = [] ∧
        (send_sdp_to_peer desc s).1.app_state = AppState.APP_STATE_ERROR ∧
        Event.printErr "Can\x27t send SDP to peer, not in call"
          ∈ (send_sdp_to_peer desc s).2 ∧
        (send_sdp_to_peer desc s).1.loopAlive = false)) ∧
    (AppState.PEER_CALL_NEGOTIATING.code ≤ s.app_state.code →
       send_ice_candidate_message mline cand s
         = (s, [Event.wsSend (WireMsg.ice cand mline)]) ∧
       send_sdp_to_peer desc s
         = (s, [Event.wsSend
                  (WireMsg.sdp (sdp_type_string desc.type) desc.sdp)])) := by
  constructor
  · intro hlt
    refine ⟨⟨?_, ?_, ?_, ?_⟩, ?_, ?_, ?_, ?_⟩ <;>
      simp only [send_ice_candidate_message, send_sdp_to_peer, if_pos hlt]
    · exact cleanup_filter_ws_send _ _ s
    · exact cleanup_app_state_set _ _ s (by decide)
    · exact cleanup_prints _ _ s
    · exact cleanup_loop_dead _ _ s
    · exact cleanup_filter_ws_send _ _ s
    · exact cleanup_app_state_set _ _ s (by decide)
    · exact cleanup_prints _ _ s
    · exact cleanup_loop_dead _ _ s
  · intro hge
    have hnlt : ¬ s.app_state.code < AppState.PEER_CALL_NEGOTIATING.code :=
      not_lt.mpr hge
    constructor <;>
      simp [send_ice_candidate_message, send_sdp_to_peer, hnlt]

theorem sdp_ice_send_requires_negotiating_witness :
    (peerConnectingSt.app_state.code < AppState.PEER_CALL_NEGOTIATING.code ∧
     (((send_ice_candidate_message 0 "cand" peerConnectingSt).2.filter
         is_ws_send = [] ∧
       (send_ice_candidate_message 0 "cand" peerConnectingSt).1.app_state
         = AppState.APP_STATE_ERROR ∧
       Event.printErr "Can\x27t send ICE, not in call"
         ∈ (send_ice_candidate_message 0 "cand" peerConnectingSt).2 ∧
       (send_ice_candidate_message 0 "cand" peerConnectingSt).1.loopAlive
         = false) ∧
      ((send_sdp_to_peer { type := SdpType.answer, sdp := "v=0" }
          peerConnectingSt).2.filter is_ws_send = [] ∧
       (send_sdp_to_peer { type := SdpType.answer, sdp := "v=0" }
          peerConnectingSt).1.app_state = AppState.APP_STATE_ERROR ∧
       Event.printErr "Can\x27t send SDP to peer, not in call"
         ∈ (send_sdp_to_peer { type := SdpType.answer, sdp := "v=0" }
             peerConnectingSt).2 ∧
       (send_sdp_to_peer { type := SdpType.answer, sdp := "v=0" }
          peerConnectingSt).1.loopAlive = false))) ∧
    (AppState.PEER_CALL_NEGOTIATING.code ≤ negotiatingSt.app_state.code ∧
     (send_ice_candidate_message 0 "cand" negotiatingSt
        = (negotiatingSt, [Event.wsSend (WireMsg.ice "cand" 0)]) ∧
      send_sdp_to_peer { type := SdpType.answer, sdp := "v=0" } negotiatingSt
        = (negotiatingSt,
           [Event.wsSend (WireMsg.sdp "answer" "v=0")]))) :=
  ⟨⟨by decide,
    (sdp_ice_send_requires_negotiating peerConnectingSt 0 "cand"
      { type := SdpType.answer, sdp := "v=0" }).1 (by decide)⟩,
   ⟨by decide,
    (sdp_ice_send_requires_negotiating negotiatingSt 0 "cand"
      { type := SdpType.answer, sdp := "v=0" }).2 (by decide)⟩⟩

/-- Claim C3: a remote offer is gated on the signaling state of the
collaborator: when it is not stable the offer is ignored entirely (no
description applied, no answer or any other response produced); when it
is stable the offer is applied as the remote description with
on_offer_set as the completion, and on_offer_set in turn requests answer
creation. -/
theorem on_offer_received_stable_gate (sdp : String) (sig : SignalingState)
    (s t : St) :
    (sig ≠ SignalingState.stable → on_offer_received sdp sig s = (s, [])) ∧
    (sig = SignalingState.stable →
       on_offer_received sdp sig s
         = (s, [Event.requestSetRemoteDescription
                  { type := SdpType.offer, sdp := sdp }
                  (some Callback.onOfferSet)])) ∧
    on_offer_set t
      = (t, [Event.requestCreateAnswer Callback.onAnswerCreated]) := by
  refine ⟨?_, ?_, rfl⟩
  · intro hne
    simp [on_offer_received, hne]
  · intro he
    subst he
    simp [on_offer_received]

theorem on_offer_received_stable_gate_witness :
    (SignalingState.haveLocalOffer ≠ SignalingState.stable ∧
     on_offer_received "v=0" SignalingState.haveLocalOffer runningSt
       = (runningSt, [])) ∧
    (SignalingState.stable = SignalingState.stable ∧
     on_offer_received "v=0" SignalingState.stable runningSt
       = (runningSt,
          [Event.requestSetRemoteDescription
             { type := SdpType.offer, sdp := "v=0" }
             (some Callback.onOfferSet)])) ∧
    on_offer_set runningSt
      = (runningSt, [Event.requestCreateAnswer Callback.onAnswerCreated]) :=
  ⟨⟨by decide,
    (on_offer_received_stable_gate "v=0" SignalingState.haveLocalOffer
      runningSt runningSt).1 (by decide)⟩,
   ⟨rfl,
    (on_offer_received_stable_gate "v=0" SignalingState.stable
      runningSt runningSt).2.1 rfl⟩,
   (on_offer_received_stable_gate "v=0" SignalingState.stable
      runningSt runningSt).2.2⟩

/-- Claim C4 is refuted by the code: on_answer_created emits the
set-local-description request and then immediately calls
gst_promise_interrupt on that promise. Interrupting the still-pending
promise invokes its change function on_local_description_set at once
(GstPromise semantics), so the serialised answer is sent on the
websocket inside the same synchronous handler execution as the request:
in the trace below the wsSend directly follows the request, and the
acknowledgment by the collaborator, which can only arrive as a later
main-loop event, has not happened. The answer is therefore sent before
the local-description application is acknowledged, contradicting the
claim. -/
theorem on_answer_created_sends_before_local_ack :
    (on_answer_created "v=0" negotiatingSt).2
      = [Event.requestSetLocalDescription
           { type := SdpType.answer, sdp := "v=0" }
           (some Callback.onLocalDescriptionSet),
         Event.wsSend (WireMsg.sdp "answer" "v=0")] := by decide

/-- Claim C5: a server message with prefix ERROR is routed to the error
branch of on_server_message, which maps PEER_CONNECTING to
PEER_CONNECTION_ERROR and PEER_CALL_NEGOTIATING to PEER_CALL_ERROR, and
in every case performs the terminal shutdown: the message text is
printed as the reason, the main loop is stopped, and nothing is sent on
the wire (no retry, no reconnect). -/
theorem error_message_state_classification (text : String) (s : St)
    (hpre : is_error_text text = true) :
    classify_server_text text = ServerTextClass.errorText ∧
    (s.app_state = AppState.PEER_CONNECTING →
       (on_server_error_message text s).1.app_state
         = AppState.PEER_CONNECTION_ERROR) ∧
    (s.app_state = AppState.PEER_CALL_NEGOTIATING →
       (on_server_error_message text s).1.app_state
         = AppState.PEER_CALL_ERROR) ∧
    Event.printErr text ∈ (on_server_error_message text s).2 ∧
    (on_server_error_message text s).1.loopAlive = false ∧
    (on_server_error_message text s).2.filter is_ws_send = [] := by
  have hH : ¬ text = "HELLO" := by
    intro h
    rw [h] at hpre
    exact absurd hpre (by decide)
  have hS : ¬ text = "SESSION_OK" := by
    intro h
    rw [h] at hpre
    exact absurd hpre (by decide)
  have hO : ¬ text = "OFFER_REQUEST" := by
    intro h
    rw [h] at hpre
    exact absurd hpre (by decide)
  refine ⟨?_, ?_, ?_, ?_, ?_, ?_⟩
  · simp [classify_server_text, hH, hS, hO, hpre]
  · intro h
    simp only [on_server_error_message]
    rw [cleanup_app_state_kept]
    simp [h, error_state_for]
  · intro h
    simp only [on_server_error_message]
    rw [cleanup_app_state_kept]
    simp [h, error_state_for]
  · simp only [on_server_error_message]
    exact List.mem_cons_of_mem _ (cleanup_prints _ _ _)
  · simp only [on_server_error_message]
    exact cleanup_loop_dead _ _ _
  · simp [on_server_error_message, is_ws_send, cleanup_filter_ws_send]

theorem error_message_state_classification_witness :
    is_error_text "ERROR peer gone" = true ∧
    classify_server_text "ERROR peer gone" = ServerTextClass.errorText ∧
    (peerConnectingSt.app_state = AppState.PEER_CONNECTING ∧
     (on_server_error_message "ERROR peer gone" peerConnectingSt).1.app_state
       = AppState.PEER_CONNECTION_ERROR) ∧
    Event.printErr "ERROR peer gone"
      ∈ (on_server_error_message "ERROR peer gone" peerConnectingSt).2 ∧
    (on_server_error_message "ERROR peer gone" peerConnectingSt).1.loopAlive
      = false ∧
    (on_server_error_message "ERROR peer gone" peerConnectingSt).2.filter
      is_ws_send = [] := by
  have h := error_message_state_classification "ERROR peer gone"
    peerConnectingSt (by decide)
  exact ⟨by decide, h.1, ⟨rfl, h.2.1 rfl⟩, h.2.2.2.1, h.2.2.2.2.1,
    h.2.2.2.2.2⟩

/-- Claim C6: data-channel command dispatch. The literal RECV VIDEO
START TESTPATTERN schedules exactly one deferred video-start task for
the test-pattern source, RECV AUDIO STOP schedules exactly one deferred
audio-stop task, and the unrecognised RECV FOO schedules nothing and
raises no error; for every message string the handler leaves the entire
program state untouched, so no media operation is executed synchronously
inside the message callback. -/
theorem data_channel_command_dispatch (s : St) (str : String) :
    (data_channel_on_message_string s "RECV VIDEO START TESTPATTERN").2
      = [Task.sendVideoToBrowserTask
           AppVideoSource.VIDEO_SOURCE_TEST_PATTERN] ∧
    (data_channel_on_message_string s "RECV AUDIO STOP").2
      = [Task.stopAudioToBrowserTask] ∧
    (data_channel_on_message_string s "RECV FOO").2 = [] ∧
    (data_channel_on_message_string s str).1 = s := by
  exact ⟨rfl, rfl, rfl, rfl⟩

/-- Claim C7 as stated is false on the code: starting the video branch
twice in succession attaches two branch bins to the pipeline, because
send_video_to_browser has no guard against an already-attached branch,
and stopping when already detached is a crash (unconditional dereference
of the absent handles), not a no-op. -/
theorem double_start_attaches_two_branches :
    ¬ (((send_video_to_browser AppVideoSource.VIDEO_SOURCE_TEST_PATTERN
          (send_video_to_browser AppVideoSource.VIDEO_SOURCE_TEST_PATTERN
            runningSt)).pipeBins.length = 1) ∧
       stop_video_to_browser runningSt = some runningSt) := by decide

/-- Claim C7 amended: for both branch kinds, each start unconditionally
builds and attaches a new branch, so two starts in succession attach two
branches (the second overwrites the stored handles of the first); stop
on a detached branch dereferences the absent handles (modelled none, a
crash) rather than being a no-op; and start, stop, start produces a
fresh branch instance with an identity distinct from the first. -/
theorem media_branch_lifecycle_actual (src : AppVideoSource) (s : St)
    (hv1 : s.video_bin = none) (hv2 : s.video_sink = none)
    (ha1 : s.audio_bin = none) (ha2 : s.audio_sink = none) :
    ((send_video_to_browser src (send_video_to_browser src s)).pipeBins.length
        = s.pipeBins.length + 2) ∧
    stop_video_to_browser s = none ∧
    (send_video_to_browser src s).video_bin = some s.freshId ∧
    ((stop_video_to_browser (send_video_to_browser src s)).map
        (fun s1 => (send_video_to_browser src s1).video_bin)
      = some (some (s.freshId + 2))) ∧
    s.freshId + 2 ≠ s.freshId ∧
    ((send_audio_to_browser (send_audio_to_browser s)).pipeBins.length
        = s.pipeBins.length + 2) ∧
    stop_audio_to_browser s = none ∧
    ((stop_audio_to_browser (send_audio_to_browser s)).map
        (fun s1 => (send_audio_to_browser s1).audio_bin)
      = some (some (s.freshId + 2))) := by
  refine ⟨?_, ?_, ?_, ?_, by omega, ?_, ?_, ?_⟩ <;>
    simp [send_video_to_browser, send_audio_to_browser,
      send_media_to_browser, stop_video_to_browser, stop_audio_to_browser,
      stop_media_to_browser, hv1, hv2, ha1, ha2]

theorem media_branch_lifecycle_actual_witness :
    (runningSt.video_bin = none ∧ runningSt.video_sink = none ∧
     runningSt.audio_bin = none ∧ runningSt.audio_sink = none) ∧
    (((send_video_to_browser AppVideoSource.VIDEO_SOURCE_TEST_PATTERN
         (send_video_to_browser AppVideoSource.VIDEO_SOURCE_TEST_PATTERN
           runningSt)).pipeBins.length = runningSt.pipeBins.length + 2) ∧
     stop_video_to_browser runningSt = none ∧
     (send_video_to_browser AppVideoSource.VIDEO_SOURCE_TEST_PATTERN
        runningSt).video_bin = some runningSt.freshId ∧
     ((stop_video_to_browser (send_video_to_browser
           AppVideoSource.VIDEO_SOURCE_TEST_PATTERN runningSt)).map
         (fun s1 => (send_video_to_browser
             AppVideoSource.VIDEO_SOURCE_TEST_PATTERN s1).video_bin)
       = some (some (runningSt.freshId + 2))) ∧
     runningSt.freshId + 2 ≠ runningSt.freshId ∧
     ((send_audio_to_browser
         (send_audio_to_browser runningSt)).pipeBins.length
        = runningSt.pipeBins.length + 2) ∧
     stop_audio_to_browser runningSt = none ∧
     ((stop_audio_to_browser (send_audio_to_browser runningSt)).map
         (fun s1 => (send_audio_to_browser s1).audio_bin)
       = some (some (runningSt.freshId + 2)))) :=
  ⟨⟨rfl, rfl, rfl, rfl⟩,
   media_branch_lifecycle_actual AppVideoSource.VIDEO_SOURCE_TEST_PATTERN
     runningSt rfl rfl rfl rfl⟩

/-- State after the first data-channel open event on the running state. -/
def openedOnceSt : St := (data_channel_on_open runningSt).1

/-- openedOnceSt after two ticks of the liveness timer. -/
def pingedTwiceSt : St :=
  (data_channel_send_hello (data_channel_send_hello openedOnceSt).1).1

/-- Claim C8 as stated is false on the code: a subsequent open event on
the same channel is not a complete no-op. After the first open and two
liveness ticks the ping counter is 2; a second open event resets it to 0
and schedules another graph dump, so it both mutates state and schedules
work. -/
theorem second_open_resets_ping_count :
    pingedTwiceSt.ping_count = 2 ∧
    ¬ (data_channel_on_open pingedTwiceSt = (pingedTwiceSt, [])) ∧
    (data_channel_on_open pingedTwiceSt).1.ping_count = 0 := by decide

/-- Claim C8 amended: every open event resets the ping counter to zero
and schedules a graph dump; the liveness task, which sends PING n with n
post-incremented plus a binary payload and keeps firing every two
seconds (G_SOURCE_CONTINUE), is started only while the program-global
first-open flag is unset, so a second open never starts a second task
but is not a complete no-op. -/
theorem data_channel_open_behaviour (s : St) :
    ((data_channel_on_open s).1.ping_count = 0) ∧
    ((data_channel_on_open s).2 =
       if s.helloTimerStarted then [Task.dumpGraphTask]
       else [Task.sendHelloTimer, Task.dumpGraphTask]) ∧
    ((data_channel_on_open ((data_channel_on_open s).1)).2
       = [Task.dumpGraphTask]) ∧
    ((data_channel_send_hello s).1.ping_count = s.ping_count + 1) ∧
    ((data_channel_send_hello s).2.2 = true) ∧
    ((data_channel_send_hello ((data_channel_on_open s).1)).2.1
       = [Event.dcSendString "PING 0", Event.dcSendData "data"]) ∧
    ((data_channel_send_hello
        (data_channel_send_hello ((data_channel_on_open s).1)).1).2.1
       = [Event.dcSendString "PING 1", Event.dcSendData "data"]) := by
  refine ⟨?_, ?_, ?_, rfl, rfl, ?_, ?_⟩ <;>
    (rcases hb : s.helloTimerStarted <;>
      (simp [data_channel_on_open, data_channel_send_hello, hb] <;> rfl))

/-- Claim C9 as stated is false on the code: a session that terminates
through an error path still exits with code 0. A server ERROR message
received while PEER_CONNECTING maps the state to PEER_CONNECTION_ERROR,
prints the reason and stops the main loop, after which main returns
ret_code, which was set to 0 before the loop started and is never
written again. -/
theorem error_path_exit_code_zero :
    (on_server_error_message "ERROR offer failed"
        peerConnectingSt).1.app_state = AppState.PEER_CONNECTION_ERROR ∧
    Event.printErr "ERROR offer failed"
      ∈ (on_server_error_message "ERROR offer failed" peerConnectingSt).2 ∧
    (on_server_error_message "ERROR offer failed"
        peerConnectingSt).1.loopAlive = false ∧
    main_ret_code true true AppState.PEER_CONNECTION_ERROR = 0 := by decide

/-- Claim C9 amended: every terminal condition prints its human-readable
reason (the first effect of cleanup_and_quit_loop), but the exit status
is nonzero only when startup fails (option parsing or the plugin check);
once the main loop has run, main returns 0 whether the session ended
through an error path or through a clean shutdown. -/
theorem exit_code_and_reason_actual (st : AppState) (m : String)
    (state : AppState) (s : St) :
    main_ret_code true true st = 0 ∧
    main_ret_code false true st = -1 ∧
    main_ret_code true false st = -1 ∧
    (cleanup_and_quit_loop (some m) state s).2.head?
      = some (Event.printErr m) := by
  exact ⟨rfl, rfl, rfl, rfl⟩

/-- Claim C10: for any incoming sdp JSON message, whatever the current
session state, handle_sdp_json records the assignment of
PEER_CALL_NEGOTIATING as its first effect, before any validation: with
the type member missing, the message is afterwards rejected through
cleanup_and_quit_loop with PEER_CALL_ERROR (so the mutation happened
even though the message was rejected); with a valid answer, the
remote-description application is requested fire-and-forget and
app_state is set to PEER_CALL_STARTED immediately afterwards, with no
completion of the application in between (the full trace is exactly the
three effects listed). -/
theorem sdp_message_state_mutation_order (sdp : String)
    (sig : SignalingState) (s : St) :
    ((handle_sdp_json { type := none, sdp := sdp } sig s).2.head?
       = some (Event.assignState AppState.PEER_CALL_NEGOTIATING)) ∧
    ((handle_sdp_json { type := none, sdp := sdp } sig s).1.app_state
       = AppState.PEER_CALL_ERROR) ∧
    (Event.printErr "ERROR: received SDP without \x27type\x27"
       ∈ (handle_sdp_json { type := none, sdp := sdp } sig s).2) ∧
    ((handle_sdp_json { type := some "answer", sdp := sdp } sig s).2
       = [Event.assignState AppState.PEER_CALL_NEGOTIATING,
          Event.requestSetRemoteDescription
            { type := SdpType.answer, sdp := sdp } none,
          Event.assignState AppState.PEER_CALL_STARTED]) ∧
    ((handle_sdp_json { type := some "answer", sdp := sdp } sig s).1.app_state
       = AppState.PEER_CALL_STARTED) := by
  refine ⟨rfl, ?_, ?_, rfl, rfl⟩
  · simp only [handle_sdp_json]
    exact cleanup_app_state_set _ _ _ (by decide)
  · simp only [handle_sdp_json]
    exact List.mem_cons_of_mem _ (cleanup_prints _ _ _)
